import Mathlib

/-!
Verification development for the EchoForge Entry Lifecycle & Pipeline
Orchestration Engine (backend/app/domain/ef06_entrystore,
backend/app/domain/ef01_capture, backend/app/jobs/semantic_worker).

Python dictionaries holding JSON-like metadata are embedded as
association lists of `String × Val` with insertion-order update
semantics (`dset` updates the first matching key in place, otherwise
appends, exactly like assignment into an insertion-ordered dict).
`datetime` values are abstracted as natural-number ticks; `isoformat`
is embedded as the decimal rendering of the tick.  Functions that can
raise in Python return `Except String` here.
-/

namespace EchoForge

/-- Embedding of the dynamic JSON-like values stored in Entry metadata
(Python `Any`: `None`, strings, booleans, numbers, lists, dicts). -/
inductive Val where
  | null : Val
  | str (s : String) : Val
  | bool (b : Bool) : Val
  | int (n : Int) : Val
  | list (xs : List Val) : Val
  | dict (xs : List (String × Val)) : Val
deriving Inhabited

/-- Python truthiness of a metadata value (`bool(v)`). -/
def Val.truthy : Val → Bool
  | .null => false
  | .str s => s ≠ ""
  | .bool b => b
  | .int n => n ≠ 0
  | .list xs => !xs.isEmpty
  | .dict xs => !xs.isEmpty

/-- Dictionary lookup: `d.get(k)` on an insertion-ordered dict
(generic in the value type: metadata values, rule tables, stores). -/
def dget {α : Type} (k : String) : List (String × α) → Option α
  | [] => none
  | (k', v) :: rest => if k' = k then some v else dget k rest

/-- Dictionary assignment `d[k] = v`: update the first matching key in
place, otherwise append (insertion-ordered dict semantics). -/
def dset {α : Type} (k : String) (v : α) :
    List (String × α) → List (String × α)
  | [] => [(k, v)]
  | (k', v') :: rest => if k' = k then (k, v) :: rest else (k', v') :: dset k v rest

mutual

/-- Embedding of `_deep_merge_dict` (models.py) and `_merge_nested_dict`
(gateway.py): copy the original, then fold the loop body
(`deep_merge_key`, one patch item) over the patch items in order. -/
def deep_merge_dict (original : List (String × Val)) :
    List (String × Val) → List (String × Val)
  | [] => original
  | (k, v) :: rest => deep_merge_dict (deep_merge_key original k v) rest

/-- One iteration of the `_deep_merge_dict` loop: skip a `None` patch
value, recursively merge a dict patch value into an existing dict, and
otherwise overwrite. -/
def deep_merge_key (original : List (String × Val)) (k : String) :
    Val → List (String × Val)
  | Val.null => original
  | Val.dict pd =>
      match dget k original with
      | some (Val.dict od) => dset k (Val.dict (deep_merge_dict od pd)) original
      | _ => dset k (Val.dict pd) original
  | v => dset k v original

end

/-- Embedding of gateway.py `_merge_nested_dict`, whose `existing`
argument may be `None` (treated as the empty dict). -/
def merge_nested_dict (existing : Option (List (String × Val)))
    (patch : List (String × Val)) : List (String × Val) :=
  deep_merge_dict (existing.getD []) patch

/-- Python string slicing `s[:n]` (first `n` code points), used by the
`verbatim_preview` backfill in `with_summary_result`. -/
def str_take (s : String) (n : Nat) : String := String.mk (s.data.take n)

/-- Embedding of the frozen dataclass `Entry` (ef06_entrystore/models.py).
Timestamps are abstract ticks (`Nat`); `Optional[...]` fields are
`Option`; dict-valued fields are association lists. -/
structure Entry where
  entry_id : String
  source_type : String
  source_channel : String
  source_path : Option String
  pipeline_status : String
  cognitive_status : String
  metadata : List (String × Val)
  created_at : Nat
  updated_at : Nat
  verbatim_path : Option String := none
  verbatim_preview : Option String := none
  content_lang : Option String := none
  transcription_text : Option String := none
  transcription_segments : Option (List (List (String × Val))) := none
  transcription_metadata : List (String × Val) := []
  transcription_error : Option (List (String × Val)) := none
  extracted_text : Option String := none
  extraction_segments : Option (List (List (String × Val))) := none
  extraction_metadata : List (String × Val) := []
  extraction_error : Option (List (String × Val)) := none
  normalized_text : Option String := none
  normalized_segments : Option (List (List (String × Val))) := none
  normalization_metadata : List (String × Val) := []
  normalization_error : Option (List (String × Val)) := none
  summary : Option String := none
  display_title : Option String := none
  summary_model : Option String := none
  semantic_tags : Option (List String) := none
  type_id : Option String := none
  type_label : Option String := none
  domain_id : Option String := none
  domain_label : Option String := none
  classification_model : Option String := none
  is_classified : Bool := false

/-- Embedding of the factory `Entry.new` (models.py).  `uuid4` and
`utcnow` are abstracted into the explicit `entry_id` and `timestamp`
arguments the Python keyword parameters already expose. -/
def Entry.new (source_type source_channel : String)
    (source_path : Option String) (metadata : Option (List (String × Val)))
    (pipeline_status cognitive_status entry_id : String) (timestamp : Nat)
    (transcription_text : Option String := none)
    (extracted_text : Option String := none)
    (semantic_tags : Option (List String) := none) : Entry :=
  { entry_id := entry_id
    source_type := source_type
    source_channel := source_channel
    source_path := source_path
    pipeline_status := pipeline_status
    cognitive_status := cognitive_status
    metadata := metadata.getD []
    created_at := timestamp
    updated_at := timestamp
    transcription_text := transcription_text
    extracted_text := extracted_text
    semantic_tags :=
      match semantic_tags with
      | some ts => if ts.isEmpty then none else some ts
      | none => none }

/-- Embedding of `Entry.with_pipeline_status` (models.py). -/
def Entry.with_pipeline_status (e : Entry) (pipeline_status : String)
    (timestamp : Nat) : Entry :=
  { e with pipeline_status := pipeline_status, updated_at := timestamp }

/-- Error payload `{"code", "message", "retryable"}` shared by the
`with_*_failure` helpers in models.py. -/
def failure_payload (error_code message : String) (retryable : Bool) :
    List (String × Val) :=
  [("code", Val.str error_code), ("message", Val.str message),
   ("retryable", Val.bool retryable)]

/-- Embedding of `dict.update` used when merging stage metadata:
`merged = dict(self.x_metadata); merged.update(metadata)`. -/
def dict_update (base : List (String × Val)) :
    List (String × Val) → List (String × Val)
  | [] => base
  | (k, v) :: rest => dict_update (dset k v base) rest

/-- Embedding of `Entry.with_transcription_result` (models.py). -/
def Entry.with_transcription_result (e : Entry) (text : String)
    (segments : Option (List (List (String × Val))))
    (metadata : Option (List (String × Val)))
    (verbatim_path verbatim_preview content_lang : Option String)
    (timestamp : Nat) : Entry :=
  let merged :=
    match metadata with
    | some m => if m.isEmpty then e.transcription_metadata
                else dict_update e.transcription_metadata m
    | none => e.transcription_metadata
  { e with
    transcription_text := some text
    transcription_segments := segments
    transcription_metadata := merged
    transcription_error := none
    verbatim_path :=
      match verbatim_path with
      | some p => some p
      | none => e.verbatim_path
    verbatim_preview :=
      match verbatim_preview with
      | some p => some p
      | none => e.verbatim_preview
    content_lang :=
      match content_lang with
      | some c => some c
      | none => e.content_lang
    updated_at := timestamp }

/-- Embedding of `Entry.with_transcription_failure` (models.py). -/
def Entry.with_transcription_failure (e : Entry)
    (error_code message : String) (retryable : Bool) (timestamp : Nat) : Entry :=
  { e with
    transcription_error := some (failure_payload error_code message retryable)
    updated_at := timestamp }

/-- Embedding of `Entry.with_capture_event` (models.py): append one
`{type, timestamp, data?}` record to `metadata["capture_events"]`. -/
def Entry.with_capture_event (e : Entry) (event_type : String)
    (data : Option (List (String × Val))) (timestamp : Nat) : Entry :=
  let events :=
    match dget "capture_events" e.metadata with
    | some (Val.list xs) => xs
    | _ => []
  let base := [("type", Val.str event_type),
               ("timestamp", Val.str (toString timestamp))]
  let event :=
    match data with
    | some d => if d.isEmpty then base else base ++ [("data", Val.dict d)]
    | none => base
  { e with
    metadata := dset "capture_events" (Val.list (events ++ [Val.dict event])) e.metadata
    updated_at := timestamp }

/-- Reading of `metadata.get("capture_metadata") or {}` on a metadata
dict: a missing, `None` or non-dict value yields the empty dict. -/
def capture_metadata_of_dict (m : List (String × Val)) : List (String × Val) :=
  match dget "capture_metadata" m with
  | some (Val.dict d) => d
  | _ => []

/-- Embedding of `Entry.with_capture_metadata` (models.py): deep-merge a
patch into `metadata["capture_metadata"]`; an empty patch is the
identity. -/
def Entry.with_capture_metadata (e : Entry) (patch : List (String × Val))
    (timestamp : Nat) : Entry :=
  if patch.isEmpty then e
  else
    { e with
      metadata := dset "capture_metadata"
        (Val.dict (deep_merge_dict (capture_metadata_of_dict e.metadata) patch))
        e.metadata
      updated_at := timestamp }

/-- Embedding of `Entry.with_extraction_result` (models.py). -/
def Entry.with_extraction_result (e : Entry) (text : String)
    (segments : Option (List (List (String × Val))))
    (metadata : Option (List (String × Val)))
    (verbatim_path verbatim_preview content_lang : Option String)
    (timestamp : Nat) : Entry :=
  let merged :=
    match metadata with
    | some m => if m.isEmpty then e.extraction_metadata
                else dict_update e.extraction_metadata m
    | none => e.extraction_metadata
  { e with
    extracted_text := some text
    extraction_segments := segments
    extraction_metadata := merged
    extraction_error := none
    verbatim_path :=
      match verbatim_path with
      | some p => some p
      | none => e.verbatim_path
    verbatim_preview :=
      match verbatim_preview with
      | some p => some p
      | none => e.verbatim_preview
    content_lang :=
      match content_lang with
      | some c => some c
      | none => e.content_lang
    updated_at := timestamp }

/-- Embedding of `Entry.with_extraction_failure` (models.py). -/
def Entry.with_extraction_failure (e : Entry)
    (error_code message : String) (retryable : Bool) (timestamp : Nat) : Entry :=
  { e with
    extraction_error := some (failure_payload error_code message retryable)
    updated_at := timestamp }

/-- Embedding of `Entry.with_normalization_result` (models.py). -/
def Entry.with_normalization_result (e : Entry) (text : String)
    (segments : Option (List (List (String × Val))))
    (metadata : Option (List (String × Val))) (timestamp : Nat) : Entry :=
  let merged :=
    match metadata with
    | some m => if m.isEmpty then e.normalization_metadata
                else dict_update e.normalization_metadata m
    | none => e.normalization_metadata
  { e with
    normalized_text := some text
    normalized_segments := segments
    normalization_metadata := merged
    normalization_error := none
    updated_at := timestamp }

/-- Embedding of `Entry.with_normalization_failure` (models.py). -/
def Entry.with_normalization_failure (e : Entry)
    (error_code message : String) (retryable : Bool) (timestamp : Nat) : Entry :=
  { e with
    normalization_error := some (failure_payload error_code message retryable)
    updated_at := timestamp }

/-- Embedding of `Entry.with_summary_result` (models.py): note the
`verbatim_preview` backfill from the first 400 characters of the summary
and the Python falsy (`or`) fallbacks on `display_title`/`model_used`. -/
def Entry.with_summary_result (e : Entry) (summary : String)
    (display_title model_used : Option String)
    (semantic_tags : Option (List String)) (timestamp : Nat) : Entry :=
  let preview_value :=
    if (e.verbatim_preview = none ∨ e.verbatim_preview = some "") ∧ summary ≠ ""
    then some (str_take summary 400) else e.verbatim_preview
  { e with
    summary := some summary
    display_title :=
      match display_title with
      | some d => if d = "" then e.display_title else some d
      | none => e.display_title
    summary_model :=
      match model_used with
      | some m => if m = "" then e.summary_model else some m
      | none => e.summary_model
    semantic_tags :=
      match semantic_tags with
      | some ts => some ts
      | none => e.semantic_tags
    verbatim_preview := preview_value
    updated_at := timestamp }

/-- Embedding of `Entry.with_classification_result` (models.py). -/
def Entry.with_classification_result (e : Entry)
    (type_label domain_label : String) (model_used : Option String)
    (timestamp : Nat) : Entry :=
  { e with
    type_label := some type_label
    domain_label := some domain_label
    classification_model :=
      match model_used with
      | some m => if m = "" then e.classification_model else some m
      | none => e.classification_model
    is_classified := true
    updated_at := timestamp }

/-- Embedding of `DEFAULT_INGEST_STATE` (pipeline_states.py). -/
def DEFAULT_INGEST_STATE : String := "captured"

/-- Embedding of `PIPELINE_STATUS_TRANSITIONS` (pipeline_states.py):
the authoritative `(ingest_state, pipeline_status) -> ingest_state`
transition table, transcribed literally. -/
def PIPELINE_STATUS_TRANSITIONS : List (String × List (String × String)) :=
  [("captured",
    [("captured", "captured"),
     ("ingested", "captured"),
     ("queued_for_transcription", "queued_for_transcription"),
     ("queued_for_extraction", "queued_for_extraction")]),
   ("queued_for_transcription",
    [("queued_for_transcription", "queued_for_transcription"),
     ("transcription_in_progress", "processing_transcription"),
     ("transcription_failed", "failed")]),
   ("processing_transcription",
    [("transcription_in_progress", "processing_transcription"),
     ("transcription_failed", "failed"),
     ("transcription_complete", "processing_normalization"),
     ("queued_for_normalization", "processing_normalization"),
     ("queued_for_transcription", "queued_for_transcription")]),
   ("queued_for_extraction",
    [("queued_for_extraction", "queued_for_extraction"),
     ("extraction_in_progress", "processing_extraction"),
     ("extraction_failed", "failed")]),
   ("processing_extraction",
    [("extraction_in_progress", "processing_extraction"),
     ("extraction_failed", "failed"),
     ("extraction_complete", "processing_normalization"),
     ("queued_for_normalization", "processing_normalization"),
     ("queued_for_extraction", "queued_for_extraction")]),
   ("processing_normalization",
    [("transcription_complete", "processing_normalization"),
     ("extraction_complete", "processing_normalization"),
     ("queued_for_normalization", "processing_normalization"),
     ("normalization_in_progress", "processing_normalization"),
     ("normalization_complete", "processing_semantic"),
     ("normalization_failed", "failed")]),
   ("processing_semantic",
    [("normalization_complete", "processing_semantic"),
     ("queued_for_semantics", "processing_semantic"),
     ("semantic_in_progress", "processing_semantic"),
     ("semantic_failed", "failed"),
     ("semantic_complete", "processed")]),
   ("processed",
    [("semantic_complete", "processed"),
     ("normalization_complete", "processed")]),
   ("failed",
    [("transcription_failed", "failed"),
     ("extraction_failed", "failed"),
     ("normalization_failed", "failed"),
     ("semantic_failed", "failed")])]

/-- Falsy-state defaulting performed by `resolve_next_ingest_state`:
`state = current_ingest_state or DEFAULT_INGEST_STATE`. -/
def defaulted_state (current_ingest_state : String) : String :=
  if current_ingest_state = "" then DEFAULT_INGEST_STATE else current_ingest_state

/-- Error message raised by `resolve_next_ingest_state` on a rejected
pair (the \x27 escapes are ASCII single quotes). -/
def resolve_error_message (pipeline_status state : String) : String :=
  "pipeline_status \x27" ++ pipeline_status ++
    "\x27 is not allowed when ingest_state=\x27" ++ state ++ "\x27"

/-- Embedding of `resolve_next_ingest_state` (pipeline_states.py):
`ValueError` becomes `Except.error`. -/
def resolve_next_ingest_state (current_ingest_state pipeline_status : String) :
    Except String String :=
  let state := defaulted_state current_ingest_state
  match dget state PIPELINE_STATUS_TRANSITIONS with
  | some rules =>
      match dget pipeline_status rules with
      | some next => Except.ok next
      | none => Except.error (resolve_error_message pipeline_status state)
  | none => Except.error (resolve_error_message pipeline_status state)

/-- Reading of `record.metadata.get("capture_metadata") or {}`
(gateway.py). -/
def capture_metadata_of (e : Entry) : List (String × Val) :=
  capture_metadata_of_dict e.metadata

/-- Embedding of `_current_ingest_state` (gateway.py):
`capture_meta.get("ingest_state") or DEFAULT_INGEST_STATE` (a missing
or falsy value falls back to the default). -/
def current_ingest_state (e : Entry) : String :=
  match dget "ingest_state" (capture_metadata_of e) with
  | some (Val.str s) => if s = "" then DEFAULT_INGEST_STATE else s
  | _ => DEFAULT_INGEST_STATE

/-- Embedding of `PIPELINE_TRANSITION_EVENT` (gateway.py). -/
def PIPELINE_TRANSITION_EVENT : String := "pipeline_status_changed"

/-- Transition record written by `_bootstrap_capture_metadata`
(gateway.py); `from_ingest_state`/`previous_pipeline_status` are `None`
at creation time. -/
def bootstrap_transition_record (ingest_state pipeline_status : String)
    (timestamp : Nat) : List (String × Val) :=
  [("from_ingest_state", Val.null),
   ("to_ingest_state", Val.str ingest_state),
   ("pipeline_status", Val.str pipeline_status),
   ("previous_pipeline_status", Val.null),
   ("occurred_at", Val.str (toString timestamp))]

/-- Embedding of `_bootstrap_capture_metadata` (gateway.py): seed
`capture_metadata` with the initial transition unless an `ingest_state`
is already present (truthy). -/
def bootstrap_capture_metadata (record : Entry) : Except String Entry :=
  let capture_meta := capture_metadata_of record
  if ((dget "ingest_state" capture_meta).getD Val.null).truthy then
    Except.ok record
  else
    match resolve_next_ingest_state DEFAULT_INGEST_STATE record.pipeline_status with
    | Except.error _ =>
        Except.error ("invalid initial pipeline_status \x27" ++
          record.pipeline_status ++ "\x27 for entry " ++ record.entry_id)
    | Except.ok ingest_state =>
        let tr := bootstrap_transition_record ingest_state
          record.pipeline_status record.updated_at
        Except.ok (record.with_capture_metadata
          [("ingest_state", Val.str ingest_state),
           ("pipeline_status", Val.str record.pipeline_status),
           ("pipeline_history", Val.list [Val.dict tr]),
           ("last_transition", Val.dict tr)]
          record.updated_at)

/-- Transition record written by `_apply_pipeline_transition`
(gateway.py). -/
def transition_record (from_state to_state pipeline_status previous : String)
    (timestamp : Nat) : List (String × Val) :=
  [("from_ingest_state", Val.str from_state),
   ("to_ingest_state", Val.str to_state),
   ("pipeline_status", Val.str pipeline_status),
   ("previous_pipeline_status", Val.str previous),
   ("occurred_at", Val.str (toString timestamp))]

/-- Embedding of `_apply_pipeline_transition` (gateway.py).  The
`utcnow()` taken for the transition time is the explicit `now`
argument.  Identical requested status resolving to the identical
ingest state returns the record unchanged (the Python identity
`updated_entry is current_entry` no-op). -/
def apply_pipeline_transition (record : Entry) (pipeline_status : String)
    (now : Nat) : Except String Entry :=
  let current_state := current_ingest_state record
  match resolve_next_ingest_state current_state pipeline_status with
  | Except.error _ =>
      Except.error ("pipeline_status \x27" ++ pipeline_status ++
        "\x27 not allowed from ingest_state \x27" ++ current_state ++
        "\x27 for entry " ++ record.entry_id)
  | Except.ok next_state =>
      if pipeline_status = record.pipeline_status ∧ next_state = current_state then
        Except.ok record
      else
        let capture_meta := capture_metadata_of record
        let history :=
          match dget "pipeline_history" capture_meta with
          | some (Val.list h) => h
          | _ => []
        let tr := transition_record current_state next_state pipeline_status
          record.pipeline_status now
        let history' := history ++ [Val.dict tr]
        let updated := record.with_pipeline_status pipeline_status now
        let updated := updated.with_capture_metadata
          [("ingest_state", Val.str next_state),
           ("pipeline_status", Val.str pipeline_status),
           ("pipeline_history", Val.list history'),
           ("last_transition", Val.dict tr)] now
        let updated := updated.with_capture_event PIPELINE_TRANSITION_EVENT
          (some tr) now
        Except.ok updated

mutual

/-- Boolean equality on metadata values (used only for the fingerprint
index keys, which Python compares by dict-key equality). -/
def Val.beq : Val → Val → Bool
  | .null, .null => true
  | .str a, .str b => a == b
  | .bool a, .bool b => a == b
  | .int a, .int b => a == b
  | .list a, .list b => Val.beqList a b
  | .dict a, .dict b => Val.beqDict a b
  | _, _ => false

/-- Pointwise `Val.beq` on lists. -/
def Val.beqList : List Val → List Val → Bool
  | [], [] => true
  | x :: xs, y :: ys => Val.beq x y && Val.beqList xs ys
  | _, _ => false

/-- Pointwise `Val.beq` on dict entries. -/
def Val.beqDict : List (String × Val) → List (String × Val) → Bool
  | [], [] => true
  | (k, v) :: xs, (k', v') :: ys => k == k' && Val.beq v v' && Val.beqDict xs ys
  | _, _ => false

end

/-- State of `InMemoryEntryStoreGateway` (gateway.py): the `_entries`
map and the `(fingerprint, source_channel) -> entry_id` index. -/
structure InMemoryStore where
  entries : List (String × Entry) := []
  fingerprint_index : List ((Val × String) × String) := []

/-- Assignment into the fingerprint index dict. -/
def fidx_set (key : Val × String) (entry_id : String) :
    List ((Val × String) × String) → List ((Val × String) × String)
  | [] => [(key, entry_id)]
  | (key', id') :: rest =>
      if Val.beq key'.1 key.1 && key'.2 == key.2 then (key, entry_id) :: rest
      else (key', id') :: fidx_set key entry_id rest

/-- Embedding of `InMemoryEntryStoreGateway.create_entry` (gateway.py).
The generated `uuid4` id and the `utcnow()` tick are the explicit
`new_id`/`now` arguments.  A raised `ValueError` leaves the store
untouched, hence the `InMemoryStore × Except` result shape. -/
def create_entry (store : InMemoryStore) (source_type source_channel : String)
    (source_path : Option String) (metadata : Option (List (String × Val)))
    (pipeline_status cognitive_status new_id : String) (now : Nat) :
    InMemoryStore × Except String Entry :=
  let meta := metadata.getD []
  let fingerprint := dget "capture_fingerprint" meta
  if !(fingerprint.getD Val.null).truthy then
    (store, Except.error "capture_fingerprint is required for EF-01 ingests")
  else
    let record := Entry.new source_type source_channel source_path (some meta)
      pipeline_status cognitive_status new_id now
    match bootstrap_capture_metadata record with
    | Except.error msg => (store, Except.error msg)
    | Except.ok record =>
        ({ entries := dset record.entry_id record store.entries
           fingerprint_index := fidx_set (fingerprint.getD Val.null, source_channel)
             record.entry_id store.fingerprint_index },
         Except.ok record)

/-- Embedding of `InMemoryEntryStoreGateway.update_pipeline_status`
(gateway.py): a raised `KeyError`/`ValueError` leaves the store
untouched. -/
def update_pipeline_status (store : InMemoryStore) (entry_id pipeline_status : String)
    (now : Nat) : InMemoryStore × Except String Entry :=
  match dget entry_id store.entries with
  | none => (store, Except.error ("Entry " ++ entry_id ++ " not found"))
  | some record =>
      match apply_pipeline_transition record pipeline_status now with
      | Except.error msg => (store, Except.error msg)
      | Except.ok updated =>
          ({ store with entries := dset entry_id updated store.entries },
           Except.ok updated)

/-- Embedding of `InMemoryEntryStoreGateway.merge_capture_metadata`
(gateway.py): an empty patch returns the record without touching it. -/
def merge_capture_metadata (store : InMemoryStore) (entry_id : String)
    (patch : List (String × Val)) (now : Nat) :
    InMemoryStore × Except String Entry :=
  match dget entry_id store.entries with
  | none => (store, Except.error ("Entry " ++ entry_id ++ " not found"))
  | some record =>
      if patch.isEmpty then (store, Except.ok record)
      else
        let updated := record.with_capture_metadata patch now
        ({ store with entries := dset entry_id updated store.entries },
         Except.ok updated)

/-- Embedding of `InMemoryEntryStoreGateway.record_capture_event`
(gateway.py). -/
def record_capture_event (store : InMemoryStore) (entry_id event_type : String)
    (data : Option (List (String × Val))) (now : Nat) :
    InMemoryStore × Except String Entry :=
  match dget entry_id store.entries with
  | none => (store, Except.error ("Entry " ++ entry_id ++ " not found"))
  | some record =>
      let updated := record.with_capture_event event_type data now
      ({ store with entries := dset entry_id updated store.entries },
       Except.ok updated)

/-- Embedding of `InMemoryEntryStoreGateway.save_summary` (gateway.py),
which delegates to `Entry.with_summary_result`. -/
def in_memory_save_summary (store : InMemoryStore) (entry_id summary : String)
    (display_title model_used : Option String)
    (semantic_tags : Option (List String)) (now : Nat) :
    InMemoryStore × Except String Entry :=
  match dget entry_id store.entries with
  | none => (store, Except.error ("Entry " ++ entry_id ++ " not found"))
  | some record =>
      let updated := record.with_summary_result summary display_title
        model_used semantic_tags now
      ({ store with entries := dset entry_id updated store.entries },
       Except.ok updated)

/-- Embedding of `PostgresEntryStoreGateway.save_summary` (gateway.py)
as the effect of its single UPDATE statement on the fetched row: the
statement sets exactly `summary`, `display_title`, `summary_model`,
`semantic_tags` and `updated_at` (with `IS NOT NULL`-style fallbacks
computed from the fetched row) and leaves every other column alone. -/
def postgres_save_summary (e : Entry) (summary : String)
    (display_title model_used : Option String)
    (semantic_tags : Option (List String)) (now : Nat) : Entry :=
  { e with
    summary := some summary
    display_title :=
      match display_title with
      | some d => some d
      | none => e.display_title
    summary_model :=
      match model_used with
      | some m => some m
      | none => e.summary_model
    semantic_tags :=
      match semantic_tags with
      | some ts => some ts
      | none => e.semantic_tags
    updated_at := now }

/-- Embedding of `SKIP_PIPELINE_STATUSES` (ef01_capture/idempotency.py). -/
def SKIP_PIPELINE_STATUSES : List String :=
  ["queued_for_transcription", "queued_for_extraction", "queued",
   "processing", "processed"]

/-- Embedding of `IdempotencyDecision` (ef01_capture/idempotency.py). -/
structure IdempotencyDecision where
  should_process : Bool
  reason : String
  existing_entry_id : Option String := none
deriving DecidableEq

/-- Embedding of `evaluate_idempotency` (ef01_capture/idempotency.py);
the `EntryFingerprintReader` protocol argument is the lookup function
itself. -/
def evaluate_idempotency (find_by_fingerprint : String → String → Option Entry)
    (fingerprint source_channel : String) : IdempotencyDecision :=
  match find_by_fingerprint fingerprint source_channel with
  | none => { should_process := true, reason := "no_existing_entry" }
  | some snapshot =>
      if SKIP_PIPELINE_STATUSES.contains snapshot.pipeline_status then
        { should_process := false
          reason := "existing_entry_active_or_completed"
          existing_entry_id := some snapshot.entry_id }
      else
        { should_process := true
          reason := "existing_entry_retry_allowed"
          existing_entry_id := some snapshot.entry_id }

/-- Embedding of `SemanticGatewayError` (infra.llm_gateway), as consumed
by the semantic worker retry loop. -/
structure SemanticGatewayError where
  code : String
  retryable : Bool
deriving DecidableEq

/-- Outcome of one `generate_semantic_response` call as observed by the
semantic worker. -/
inductive LlmCallResult where
  | ok (response : Val)
  | err (e : SemanticGatewayError)

/-- Embedding of the `while True` retry loop in `semantic_worker.handle`
(semantic_worker.py lines 177-221).  `results i` is the outcome of the
i-th LLM call (0-based); the function returns the final `attempts`
counter, the list of backoff sleeps (in milliseconds,
`backoff_ms * 2^(attempts-1)` before each retry) and either the
successful response or the error that stopped the loop.  `attempts` is
the loop counter on entry (0 at the first call). -/
def semantic_retry_loop (results : Nat → LlmCallResult)
    (max_attempts backoff_ms attempts : Nat) :
    Nat × List Nat × Except SemanticGatewayError Val :=
  let a := attempts + 1
  match results (a - 1) with
  | LlmCallResult.ok r => (a, [], Except.ok r)
  | LlmCallResult.err e =>
      if e.retryable ∧ a < max_attempts then
        let rest := semantic_retry_loop results max_attempts backoff_ms a
        (rest.1, backoff_ms * 2 ^ (a - 1) :: rest.2.1, rest.2.2)
      else (a, [], Except.error e)
termination_by max_attempts - attempts

/-- Clamp applied to the configured attempt ceiling in `handle`:
`max(1, int(... or 2))`. -/
def clamped_max_attempts (configured : Nat) : Nat := max 1 configured

/-- Event data assembled by `_record_capture_event` for the
`semantic_failed` event (semantic_worker.py): the base
`{stage, pipeline_status}` dict, the truthy `correlation_id` if any,
then the `extra` keys `{error_code, retryable, operation}`. -/
def semantic_failure_event_data (code : String) (retryable : Bool)
    (operation : String) (correlation_id : Option String) :
    List (String × Val) :=
  [("stage", Val.str "semantics"), ("pipeline_status", Val.str "semantic_failed")] ++
    (match correlation_id with
     | some c => if c = "" then [] else [("correlation_id", Val.str c)]
     | none => []) ++
    [("error_code", Val.str code), ("retryable", Val.bool retryable),
     ("operation", Val.str operation)]

/-- The `last_error` patch merged by `_handle_failure`
(semantic_worker.py lines 347-394). -/
def semantic_last_error_patch (code : String) (retryable : Bool)
    (operation : String) : List (String × Val) :=
  [("last_error", Val.dict
    [("stage", Val.str "semantics"), ("code", Val.str code),
     ("retryable", Val.bool retryable), ("operation", Val.str operation)])]

/-- Embedding of `_handle_failure` (semantic_worker.py) as its effect on
the stored Entry: `update_pipeline_status("semantic_failed")`, then the
`semantic_failed` capture event, then the `last_error` metadata merge
(the three gateway calls take successive `utcnow()` ticks `t1 t2 t3`).
A state-machine rejection propagates out of the first call. -/
def semantic_handle_failure (e : Entry) (code : String) (retryable : Bool)
    (operation : String) (correlation_id : Option String)
    (t1 t2 t3 : Nat) : Except String Entry :=
  match apply_pipeline_transition e "semantic_failed" t1 with
  | Except.error msg => Except.error msg
  | Except.ok e1 =>
      let e2 := e1.with_capture_event "semantic_failed"
        (some (semantic_failure_event_data code retryable operation correlation_id)) t2
      let e3 := e2.with_capture_metadata
        (semantic_last_error_patch code retryable operation) t3
      Except.ok e3

/-! Dictionary lemmas. -/

theorem dget_dset_self {α : Type} (k : String) (v : α) (l : List (String × α)) :
    dget k (dset k v l) = some v := by
  induction l with
  | nil => simp [dget, dset]
  | cons hd tl ih =>
      obtain ⟨k', v'⟩ := hd
      by_cases h : k' = k
      · subst h; simp [dget, dset]
      · simp [dget, dset, h, ih]

theorem dget_dset_ne {α : Type} {k k' : String} (h : k' ≠ k) (v : α)
    (l : List (String × α)) : dget k (dset k' v l) = dget k l := by
  induction l with
  | nil => simp [dget, dset, h]
  | cons hd tl ih =>
      obtain ⟨k'', v''⟩ := hd
      by_cases h2 : k'' = k'
      · subst h2; simp [dget, dset, h]
      · by_cases h3 : k'' = k
        · subst h3; simp [dget, dset, h2]
        · simp [dget, dset, h2, h3, ih]

theorem dget_mem {α : Type} {k : String} {v : α} :
    ∀ {l : List (String × α)}, dget k l = some v → (k, v) ∈ l := by
  intro l
  induction l with
  | nil => intro h; simp [dget] at h
  | cons hd tl ih =>
      obtain ⟨k', v'⟩ := hd
      intro h
      by_cases h2 : k' = k
      · subst h2
        simp [dget] at h
        subst h
        exact List.mem_cons_self _ _
      · simp [dget, h2] at h
        exact List.mem_cons_of_mem _ (ih h)

theorem nodup_key_cons {α : Type} {k' : String} {v' : α}
    {rest : List (String × α)}
    (h : (((k', v') :: rest).map Prod.fst).Nodup) :
    k' ∉ rest.map Prod.fst ∧ (rest.map Prod.fst).Nodup := by
  rw [List.map_cons, List.nodup_cons] at h
  exact h

theorem dget_eq_none_of_not_mem {α : Type} {k : String} :
    ∀ {l : List (String × α)}, k ∉ l.map Prod.fst → dget k l = none := by
  intro l
  induction l with
  | nil => intro _; rfl
  | cons hd tl ih =>
      obtain ⟨k', v'⟩ := hd
      intro h
      rw [List.map_cons, List.mem_cons] at h
      push_neg at h
      have hk : k' ≠ k := fun hkk => h.1 hkk.symm
      simp [dget, hk, ih h.2]

theorem dget_eq_some_of_mem_nodup {α : Type} {k : String} {v : α} :
    ∀ {l : List (String × α)}, (l.map Prod.fst).Nodup → (k, v) ∈ l →
      dget k l = some v := by
  intro l
  induction l with
  | nil => intro _ h; simp at h
  | cons hd tl ih =>
      obtain ⟨k', v'⟩ := hd
      intro hnd hmem
      obtain ⟨hnotin, hnd'⟩ := nodup_key_cons hnd
      rcases List.mem_cons.mp hmem with heq | htl
      · simp at heq
        obtain ⟨h1, h2⟩ := heq
        simp [dget, h1.symm, h2]
      · have hk : k' ≠ k := by
          intro hk; subst hk
          exact hnotin (List.mem_map_of_mem Prod.fst htl)
        simp [dget, hk, ih hnd' htl]

theorem dset_dget_id {α : Type} {k : String} {v : α} :
    ∀ {l : List (String × α)}, dget k l = some v → dset k v l = l := by
  intro l
  induction l with
  | nil => intro h; simp [dget] at h
  | cons hd tl ih =>
      obtain ⟨k', v'⟩ := hd
      intro h
      by_cases h2 : k' = k
      · subst h2
        simp [dget] at h
        simp [dset, h]
      · simp [dget, h2] at h
        simp [dset, h2, ih h]

/-- Lookup of `deep_merge_key` at the merged key. -/
theorem dget_deep_merge_key_self (o : List (String × Val)) (k : String) (v : Val) :
    dget k (deep_merge_key o k v) =
      (match v with
       | Val.null => dget k o
       | Val.dict pd =>
           (match dget k o with
            | some (Val.dict od) => some (Val.dict (deep_merge_dict od pd))
            | _ => some (Val.dict pd))
       | v => some v) := by
  cases v with
  | null => rfl
  | dict pd =>
      simp only [deep_merge_key]
      rcases hv : dget k o with _ | w
      · simp [dget_dset_self]
      · cases w <;> simp [dget_dset_self]
  | str s => simp [deep_merge_key, dget_dset_self]
  | bool b => simp [deep_merge_key, dget_dset_self]
  | int n => simp [deep_merge_key, dget_dset_self]
  | list xs => simp [deep_merge_key, dget_dset_self]

/-- Lookup of `deep_merge_key` away from the merged key. -/
theorem dget_deep_merge_key_ne {k k' : String} (h : k' ≠ k)
    (o : List (String × Val)) (v : Val) :
    dget k (deep_merge_key o k' v) = dget k o := by
  cases v with
  | null => rfl
  | dict pd =>
      simp only [deep_merge_key]
      rcases hv : dget k' o with _ | w
      · simp [dget_dset_ne h]
      · cases w <;> simp [dget_dset_ne h]
  | str s => simp [deep_merge_key, dget_dset_ne h]
  | bool b => simp [deep_merge_key, dget_dset_ne h]
  | int n => simp [deep_merge_key, dget_dset_ne h]
  | list xs => simp [deep_merge_key, dget_dset_ne h]

/-- Full first-order characterization of `deep_merge_dict` at one key,
for a patch with distinct keys (Python dicts cannot repeat keys):
`None` patch values and absent keys leave the key alone, dict patch
values merge recursively into an existing dict and otherwise replace,
and every other value replaces. -/
theorem dget_deep_merge (k : String) :
    ∀ (o p : List (String × Val)), (p.map Prod.fst).Nodup →
      dget k (deep_merge_dict o p) =
        (match dget k p with
         | none => dget k o
         | some Val.null => dget k o
         | some (Val.dict pd) =>
             (match dget k o with
              | some (Val.dict od) => some (Val.dict (deep_merge_dict od pd))
              | _ => some (Val.dict pd))
         | some v => some v) := by
  intro o p
  induction p generalizing o with
  | nil => intro _; rfl
  | cons hd rest ih =>
      obtain ⟨k', v⟩ := hd
      intro hnd
      obtain ⟨hnotin, hnd'⟩ := nodup_key_cons hnd
      simp only [deep_merge_dict]
      rw [ih _ hnd']
      by_cases hk : k' = k
      · subst hk
        have hrest : dget k' rest = none := dget_eq_none_of_not_mem hnotin
        rw [hrest]
        simp only []
        rw [dget_deep_merge_key_self]
        have hhead : dget k' ((k', v) :: rest) = some v := by
          simp [dget]
        rw [hhead]
        cases v <;> rfl
      · rw [dget_deep_merge_key_ne hk]
        have hhead : dget k ((k', v) :: rest) = dget k rest := by
          simp [dget, hk]
        rw [hhead]

/-! Entry-level lemmas about capture metadata. -/

theorem capture_metadata_of_with_capture_event (e : Entry) (ty : String)
    (d : Option (List (String × Val))) (t : Nat) :
    capture_metadata_of (e.with_capture_event ty d t) = capture_metadata_of e := by
  simp [Entry.with_capture_event, capture_metadata_of, capture_metadata_of_dict,
    dget_dset_ne (show "capture_events" ≠ "capture_metadata" by decide)]

theorem current_ingest_state_with_capture_event (e : Entry) (ty : String)
    (d : Option (List (String × Val))) (t : Nat) :
    current_ingest_state (e.with_capture_event ty d t) = current_ingest_state e := by
  simp [current_ingest_state, capture_metadata_of_with_capture_event]

theorem capture_metadata_of_with_pipeline_status (e : Entry) (ps : String) (t : Nat) :
    capture_metadata_of (e.with_pipeline_status ps t) = capture_metadata_of e := rfl

theorem capture_metadata_of_with_capture_metadata {patch : List (String × Val)}
    (e : Entry) (t : Nat) (hne : patch ≠ []) :
    capture_metadata_of (e.with_capture_metadata patch t) =
      deep_merge_dict (capture_metadata_of e) patch := by
  have hne' : patch.isEmpty = false := by
    cases patch with
    | nil => exact absurd rfl hne
    | cons hd tl => rfl
  simp [Entry.with_capture_metadata, hne', capture_metadata_of,
    capture_metadata_of_dict, dget_dset_self]

theorem dget_capture_metadata_of_with_capture_metadata
    {patch : List (String × Val)} (e : Entry) (t : Nat) (k : String)
    (hnd : (patch.map Prod.fst).Nodup) (hk : dget k patch = none)
    (hne : patch ≠ []) :
    dget k (capture_metadata_of (e.with_capture_metadata patch t)) =
      dget k (capture_metadata_of e) := by
  rw [capture_metadata_of_with_capture_metadata e t hne,
    dget_deep_merge k _ _ hnd, hk]

theorem current_ingest_state_with_capture_metadata
    {patch : List (String × Val)} {next : String} (e : Entry) (t : Nat)
    (hnd : (patch.map Prod.fst).Nodup)
    (hget : dget "ingest_state" patch = some (Val.str next))
    (hne : patch ≠ []) (hne2 : next ≠ "") :
    current_ingest_state (e.with_capture_metadata patch t) = next := by
  rw [current_ingest_state, capture_metadata_of_with_capture_metadata e t hne,
    dget_deep_merge _ _ _ hnd, hget]
  simp [hne2]

/-! State machine lemmas. -/

theorem resolve_mem {s p ns : String}
    (h : resolve_next_ingest_state s p = Except.ok ns) :
    ∃ rules, dget (defaulted_state s) PIPELINE_STATUS_TRANSITIONS = some rules ∧
      dget p rules = some ns := by
  unfold resolve_next_ingest_state at h
  simp only [] at h
  split at h
  · split at h
    · rename_i rules h1 o2 next h2
      simp only [Except.ok.injEq] at h
      exact ⟨rules, h1, h ▸ h2⟩
    · exact absurd h (by simp)
  · exact absurd h (by simp)

theorem resolve_ok_ne_empty {s p ns : String}
    (h : resolve_next_ingest_state s p = Except.ok ns) : ns ≠ "" := by
  obtain ⟨rules, h1, h2⟩ := resolve_mem h
  have hm1 := dget_mem h1
  have hm2 := dget_mem h2
  have hfact : ∀ pr ∈ PIPELINE_STATUS_TRANSITIONS, ∀ kv ∈ pr.2, kv.2 ≠ "" := by
    decide
  exact hfact _ hm1 _ hm2

theorem resolve_terminal_absorbing {T ps ns : String}
    (hT : T = "processed" ∨ T = "failed")
    (h : resolve_next_ingest_state T ps = Except.ok ns) : ns = T := by
  obtain ⟨rules, h1, h2⟩ := resolve_mem h
  have hm2 := dget_mem h2
  have hfactp : ∀ pr ∈ PIPELINE_STATUS_TRANSITIONS, pr.1 = "processed" →
      ∀ kv ∈ pr.2, kv.2 = "processed" := by decide
  have hfactf : ∀ pr ∈ PIPELINE_STATUS_TRANSITIONS, pr.1 = "failed" →
      ∀ kv ∈ pr.2, kv.2 = "failed" := by decide
  rcases hT with rfl | rfl
  · have h1' : dget "processed" PIPELINE_STATUS_TRANSITIONS = some rules := h1
    exact hfactp _ (dget_mem h1') rfl _ hm2
  · have h1' : dget "failed" PIPELINE_STATUS_TRANSITIONS = some rules := h1
    exact hfactf _ (dget_mem h1') rfl _ hm2

theorem apply_pipeline_transition_ok_state {e : Entry} {ps : String} {now : Nat}
    {e' : Entry} (h : apply_pipeline_transition e ps now = Except.ok e') :
    resolve_next_ingest_state (current_ingest_state e) ps =
      Except.ok (current_ingest_state e') := by
  unfold apply_pipeline_transition at h
  simp only [] at h
  split at h
  · exact absurd h (by simp)
  · rename_i next hres
    split at h
    · rename_i hc
      simp only [Except.ok.injEq] at h
      rw [hres, ← h, hc.2]
    · simp only [Except.ok.injEq] at h
      have hnext : current_ingest_state e' = next := by
        rw [← h]
        rw [current_ingest_state_with_capture_event]
        refine current_ingest_state_with_capture_metadata _ _ ?_ rfl
          (by simp) (resolve_ok_ne_empty hres)
        simp only [List.map_cons, List.map_nil]
        decide
      rw [hres, hnext]

/-- Sequence of `update_pipeline_status` gateway calls
`(entry_id, pipeline_status, utcnow tick)` applied to the in-memory
store; a rejected transition leaves the store as it was (the raised
error propagates to the caller without touching `_entries`). -/
def run_update_calls (store : InMemoryStore) :
    List (String × String × Nat) → InMemoryStore
  | [] => store
  | (entry_id, ps, t) :: rest =>
      run_update_calls (update_pipeline_status store entry_id ps t).1 rest

theorem update_pipeline_status_preserves_terminal {T : String}
    (hT : T = "processed" ∨ T = "failed") (store : InMemoryStore)
    (id : String)
    (hP : ∀ e, dget id store.entries = some e → current_ingest_state e = T)
    (id' ps : String) (t : Nat) :
    ∀ e, dget id (update_pipeline_status store id' ps t).1.entries = some e →
      current_ingest_state e = T := by
  intro e he
  unfold update_pipeline_status at he
  rcases hrec : dget id' store.entries with _ | record
  · rw [hrec] at he
    exact hP e he
  · rw [hrec] at he
    simp only [] at he
    rcases happ : apply_pipeline_transition record ps t with msg | updated
    · rw [happ] at he
      exact hP e he
    · rw [happ] at he
      simp only [] at he
      by_cases hid : id' = id
      · subst hid
        rw [dget_dset_self] at he
        have hrecT : current_ingest_state record = T := hP record hrec
        have hres := apply_pipeline_transition_ok_state happ
        rw [hrecT] at hres
        have := resolve_terminal_absorbing hT hres
        simp at he
        rw [← he]
        exact this
      · rw [dget_dset_ne hid] at he
        exact hP e he

theorem run_update_calls_preserves_terminal {T : String}
    (hT : T = "processed" ∨ T = "failed") (id : String) :
    ∀ (calls : List (String × String × Nat)) (store : InMemoryStore),
      (∀ e, dget id store.entries = some e → current_ingest_state e = T) →
      ∀ e', dget id (run_update_calls store calls).entries = some e' →
        current_ingest_state e' = T := by
  intro calls
  induction calls with
  | nil => intro store hP e' he'; exact hP e' he'
  | cons call rest ih =>
      obtain ⟨id', ps, t⟩ := call
      intro store hP e' he'
      exact ih _ (update_pipeline_status_preserves_terminal hT store id hP id' ps t)
        e' he'

/-! Retry loop lemmas. -/

theorem range_pow_cons (b k m : Nat) :
    b * 2 ^ k :: (List.range m).map (fun i => b * 2 ^ (k + 1 + i)) =
      (List.range (m + 1)).map (fun i => b * 2 ^ (k + i)) := by
  rw [List.range_succ_eq_map, List.map_cons, List.map_map]
  simp only [Nat.add_zero]
  congr 1
  refine List.map_congr_left ?_
  intro i _
  simp only [Function.comp_apply]
  have harith : k + 1 + i = k + i.succ := by omega
  rw [harith]

theorem semantic_retry_loop_stop (results : Nat → LlmCallResult)
    {e : SemanticGatewayError} (max_attempts backoff_ms k : Nat)
    (h : results k = LlmCallResult.err e)
    (hstop : ¬(e.retryable = true ∧ k + 1 < max_attempts)) :
    semantic_retry_loop results max_attempts backoff_ms k =
      (k + 1, [], Except.error e) := by
  unfold semantic_retry_loop
  simp only [Nat.add_sub_cancel]
  rw [h]
  simp only []
  simp [hstop]

theorem semantic_retry_loop_exhaust {results : Nat → LlmCallResult}
    {c : String} {max_attempts backoff_ms : Nat}
    (h : ∀ i, results i = LlmCallResult.err ⟨c, true⟩) :
    ∀ k, k < max_attempts →
      semantic_retry_loop results max_attempts backoff_ms k =
        (max_attempts,
         (List.range (max_attempts - 1 - k)).map
           (fun i => backoff_ms * 2 ^ (k + i)),
         Except.error ⟨c, true⟩) := by
  have main : ∀ n k, max_attempts - k = n → k < max_attempts →
      semantic_retry_loop results max_attempts backoff_ms k =
        (max_attempts,
         (List.range (max_attempts - 1 - k)).map
           (fun i => backoff_ms * 2 ^ (k + i)),
         Except.error ⟨c, true⟩) := by
    intro n
    induction n with
    | zero => intro k h0 hk; omega
    | succ n ih =>
        intro k h0 hk
        unfold semantic_retry_loop
        simp only [Nat.add_sub_cancel]
        rw [h k]
        simp only []
        by_cases hcond : k + 1 < max_attempts
        · rw [if_pos ⟨trivial, hcond⟩]
          rw [ih (k + 1) (by omega) (by omega)]
          simp only []
          have hrange : max_attempts - 1 - k = (max_attempts - 1 - (k + 1)) + 1 := by
            omega
          rw [hrange, ← range_pow_cons backoff_ms k (max_attempts - 1 - (k + 1))]
        · rw [if_neg (fun hx => hcond hx.2)]
          have hk1 : k + 1 = max_attempts := by omega
          have hr0 : max_attempts - 1 - k = 0 := by omega
          rw [hk1, hr0]
          rfl
  intro k hk
  exact main (max_attempts - k) k rfl hk

/-! Concrete sample data used by witnesses and counterexamples. -/

/-- Metadata of a sample entry sitting in the semantic stage. -/
def semantic_stage_metadata : List (String × Val) :=
  [("capture_fingerprint", Val.str "fp-1"),
   ("capture_metadata", Val.dict [("ingest_state", Val.str "processing_semantic")])]

/-- Sample entry in `processing_semantic` with `semantic_in_progress`. -/
def semantic_entry : Entry :=
  { entry_id := "entry-1"
    source_type := "audio"
    source_channel := "watch"
    source_path := none
    pipeline_status := "semantic_in_progress"
    cognitive_status := "unreviewed"
    metadata := semantic_stage_metadata
    created_at := 0
    updated_at := 0
    normalized_text := some "normalized body" }

/-- Store holding only `semantic_entry`. -/
def semantic_store : InMemoryStore :=
  { entries := [("entry-1", semantic_entry)] }

/-- Sample entry already in the terminal `processed` state. -/
def processed_entry : Entry :=
  { entry_id := "entry-2"
    source_type := "document"
    source_channel := "watch"
    source_path := none
    pipeline_status := "semantic_complete"
    cognitive_status := "unreviewed"
    metadata :=
      [("capture_metadata", Val.dict [("ingest_state", Val.str "processed")])]
    created_at := 0
    updated_at := 0 }

/-- Store holding only `processed_entry`. -/
def processed_store : InMemoryStore :=
  { entries := [("entry-2", processed_entry)] }

/-! Claim theorems. -/

/-- C1 (counterexample): the claim demands failure for every pair not in
the transition table, but the code first replaces a falsy (empty)
`current_ingest_state` with the default `"captured"`: the pair
`("", "captured")` has no table row (`""` is not a key), yet
`resolve_next_ingest_state` succeeds. -/
theorem resolve_empty_state_succeeds :
    dget "" PIPELINE_STATUS_TRANSITIONS = none ∧
    resolve_next_ingest_state "" "captured" = Except.ok "captured" :=
  ⟨rfl, rfl⟩

/-- C1 (amended): after substituting `"captured"` for an empty
`current_ingest_state`, every pair recorded in the transition table
resolves to exactly the documented ingest state, every other pair fails,
and the error message contains both the attempted `pipeline_status` and
the (defaulted) current ingest state. -/
theorem resolve_next_ingest_state_spec :
    (∀ st rules ps ns, (st, rules) ∈ PIPELINE_STATUS_TRANSITIONS →
      (ps, ns) ∈ rules → resolve_next_ingest_state st ps = Except.ok ns) ∧
    (∀ st ps,
      (∀ rules, (defaulted_state st, rules) ∈ PIPELINE_STATUS_TRANSITIONS →
        ∀ ns, (ps, ns) ∉ rules) →
      resolve_next_ingest_state st ps =
        Except.error (resolve_error_message ps (defaulted_state st))) ∧
    (∀ ps st, List.IsInfix ps.data (resolve_error_message ps st).data ∧
      List.IsInfix st.data (resolve_error_message ps st).data) := by
  have hkeys : (PIPELINE_STATUS_TRANSITIONS.map Prod.fst).Nodup := by decide
  have hkeysne : ∀ pr ∈ PIPELINE_STATUS_TRANSITIONS, pr.1 ≠ "" := by decide
  have hinner : ∀ pr ∈ PIPELINE_STATUS_TRANSITIONS,
      (pr.2.map Prod.fst).Nodup := by decide
  refine ⟨?_, ?_, ?_⟩
  · intro st rules ps ns hmem1 hmem2
    have hst : st ≠ "" := hkeysne _ hmem1
    have h1 : dget st PIPELINE_STATUS_TRANSITIONS = some rules :=
      dget_eq_some_of_mem_nodup hkeys hmem1
    have h2 : dget ps rules = some ns :=
      dget_eq_some_of_mem_nodup (hinner _ hmem1) hmem2
    unfold resolve_next_ingest_state
    simp only []
    rw [show defaulted_state st = st from by simp [defaulted_state, hst]]
    rw [h1]
    simp only []
    rw [h2]
  · intro st ps hnone
    unfold resolve_next_ingest_state
    simp only []
    rcases h1 : dget (defaulted_state st) PIPELINE_STATUS_TRANSITIONS with _ | rules
    · rfl
    · simp only []
      have h2 : dget ps rules = none := by
        rcases h2' : dget ps rules with _ | ns
        · rfl
        · exact absurd (dget_mem h2') (hnone rules (dget_mem h1) ns)
      rw [h2]
  · intro ps st
    constructor
    · exact ⟨"pipeline_status \x27".data,
        ("\x27 is not allowed when ingest_state=\x27" ++ st ++ "\x27").data,
        by simp [resolve_error_message, List.append_assoc]⟩
    · exact ⟨("pipeline_status \x27" ++ ps ++
        "\x27 is not allowed when ingest_state=\x27").data,
        "\x27".data,
        by simp [resolve_error_message, List.append_assoc]⟩

/-- C1 (witness): the amended theorem applied at the concrete pair
`("processing_semantic", "semantic_complete")`. -/
theorem resolve_next_ingest_state_spec_witness :
    resolve_next_ingest_state "processing_semantic" "semantic_complete" =
      Except.ok "processed" :=
  resolve_next_ingest_state_spec.1 "processing_semantic"
    [("normalization_complete", "processing_semantic"),
     ("queued_for_semantics", "processing_semantic"),
     ("semantic_in_progress", "processing_semantic"),
     ("semantic_failed", "failed"),
     ("semantic_complete", "processed")]
    "semantic_complete" "processed" (by decide) (by decide)

/-- C2: requesting the pipeline status the Entry already has, when it
resolves back to the current ingest state, is a complete no-op of
`update_pipeline_status`: the store is unchanged and the returned Entry
is the stored one (hence no new history entry, no new capture event and
an untouched `updated_at`). -/
theorem update_pipeline_status_noop :
    ∀ (store : InMemoryStore) (id : String) (e : Entry) (ps : String) (now : Nat),
      dget id store.entries = some e → ps = e.pipeline_status →
      resolve_next_ingest_state (current_ingest_state e) ps =
        Except.ok (current_ingest_state e) →
      update_pipeline_status store id ps now = (store, Except.ok e) := by
  intro store id e ps now hget hps hres
  obtain ⟨entries, fidx⟩ := store
  unfold update_pipeline_status
  simp only [] at hget ⊢
  rw [hget]
  simp only []
  have happ : apply_pipeline_transition e ps now = Except.ok e := by
    unfold apply_pipeline_transition
    simp only []
    rw [hres]
    simp only []
    rw [if_pos ⟨hps, trivial⟩]
  rw [happ]
  simp only []
  rw [dset_dget_id hget]

/-- C2 (witness): redelivering `semantic_in_progress` to the sample
entry already in `processing_semantic` returns the store and entry
unchanged. -/
theorem update_pipeline_status_noop_witness :
    update_pipeline_status semantic_store "entry-1" "semantic_in_progress" 7 =
      (semantic_store, Except.ok semantic_entry) :=
  update_pipeline_status_noop semantic_store "entry-1" semantic_entry
    "semantic_in_progress" 7 rfl rfl rfl

/-- C3: a pipeline status that the transition table rejects from the
Entry's current ingest state makes `update_pipeline_status` fail and
leaves the store — hence the stored Entry, its history, events and
timestamps — exactly as it was. -/
theorem update_pipeline_status_illegal_unchanged :
    ∀ (store : InMemoryStore) (id : String) (e : Entry) (ps : String)
      (now : Nat) (msg : String),
      dget id store.entries = some e →
      resolve_next_ingest_state (current_ingest_state e) ps = Except.error msg →
      (update_pipeline_status store id ps now).1 = store ∧
      ∃ emsg, (update_pipeline_status store id ps now).2 = Except.error emsg := by
  intro store id e ps now msg hget hres
  have happ : ∃ m, apply_pipeline_transition e ps now = Except.error m := by
    unfold apply_pipeline_transition
    simp only []
    rw [hres]
    exact ⟨_, rfl⟩
  obtain ⟨m, happ⟩ := happ
  unfold update_pipeline_status
  rw [hget]
  simp only []
  rw [happ]
  exact ⟨rfl, m, rfl⟩

/-- C3 (witness): trying to move the processed sample entry back to
`transcription_in_progress` fails and leaves the store untouched. -/
theorem update_pipeline_status_illegal_unchanged_witness :
    (update_pipeline_status processed_store "entry-2"
      "transcription_in_progress" 9).1 = processed_store ∧
    ∃ emsg, (update_pipeline_status processed_store "entry-2"
      "transcription_in_progress" 9).2 = Except.error emsg :=
  update_pipeline_status_illegal_unchanged processed_store "entry-2"
    processed_entry "transcription_in_progress" 9
    (resolve_error_message "transcription_in_progress" "processed") rfl rfl

/-- Sample entry with an in-progress pipeline status. -/
def in_progress_entry : Entry :=
  { entry_id := "entry-3"
    source_type := "audio"
    source_channel := "watch"
    source_path := none
    pipeline_status := "transcription_in_progress"
    cognitive_status := "unreviewed"
    metadata := []
    created_at := 0
    updated_at := 0 }

/-- Sample entry queued for transcription. -/
def queued_entry : Entry :=
  { entry_id := "entry-4"
    source_type := "audio"
    source_channel := "watch"
    source_path := none
    pipeline_status := "queued_for_transcription"
    cognitive_status := "unreviewed"
    metadata := []
    created_at := 0
    updated_at := 0 }

/-- Sample entry in a failed pipeline status. -/
def failed_entry : Entry :=
  { entry_id := "entry-5"
    source_type := "audio"
    source_channel := "watch"
    source_path := none
    pipeline_status := "transcription_failed"
    cognitive_status := "unreviewed"
    metadata := []
    created_at := 0
    updated_at := 0 }

/-- C4 (counterexample): the claim places every in-progress status in
the refuse set, but `SKIP_PIPELINE_STATUSES` does not contain
`transcription_in_progress`, so an existing entry in that status is
allowed to proceed with `existing_entry_retry_allowed` instead of being
refused. -/
theorem evaluate_idempotency_in_progress_not_refused :
    in_progress_entry.pipeline_status = "transcription_in_progress" ∧
    (evaluate_idempotency (fun _ _ => some in_progress_entry)
      "fp" "ch").should_process = true ∧
    (evaluate_idempotency (fun _ _ => some in_progress_entry)
      "fp" "ch").reason = "existing_entry_retry_allowed" :=
  ⟨rfl, rfl, rfl⟩

/-- C4 (amended): `evaluate_idempotency` refuses exactly the entries
whose `pipeline_status` lies in the literal `SKIP_PIPELINE_STATUSES`
set (`queued_for_transcription`, `queued_for_extraction`, `queued`,
`processing`, `processed`); a missing entry allows processing with
`no_existing_entry`, and every other existing entry — failed statuses
but also in-progress and late-queued ones — allows processing with
`existing_entry_retry_allowed` and the existing id. -/
theorem evaluate_idempotency_spec :
    ∀ (find_by_fingerprint : String → String → Option Entry) (fp ch : String),
      (find_by_fingerprint fp ch = none →
        evaluate_idempotency find_by_fingerprint fp ch =
          { should_process := true, reason := "no_existing_entry" }) ∧
      (∀ s, find_by_fingerprint fp ch = some s →
        s.pipeline_status ∈ SKIP_PIPELINE_STATUSES →
        evaluate_idempotency find_by_fingerprint fp ch =
          { should_process := false
            reason := "existing_entry_active_or_completed"
            existing_entry_id := some s.entry_id }) ∧
      (∀ s, find_by_fingerprint fp ch = some s →
        s.pipeline_status ∉ SKIP_PIPELINE_STATUSES →
        evaluate_idempotency find_by_fingerprint fp ch =
          { should_process := true
            reason := "existing_entry_retry_allowed"
            existing_entry_id := some s.entry_id }) := by
  intro find fp ch
  refine ⟨?_, ?_, ?_⟩
  · intro h
    simp [evaluate_idempotency, h]
  · intro s h hmem
    simp only [evaluate_idempotency, h]
    rw [if_pos (List.elem_eq_true_of_mem hmem)]
  · intro s h hmem
    have hc : SKIP_PIPELINE_STATUSES.contains s.pipeline_status = false := by
      rcases hcc : SKIP_PIPELINE_STATUSES.contains s.pipeline_status with _ | _
      · rfl
      · exact absurd (List.mem_of_elem_eq_true hcc) hmem
    simp only [evaluate_idempotency, h]
    rw [if_neg (by rw [hc]; exact Bool.false_ne_true)]

/-- C4 (witness): the amended theorem applied to a missing entry, a
queued entry and a failed entry. -/
theorem evaluate_idempotency_spec_witness :
    evaluate_idempotency (fun _ _ => none) "fp" "ch" =
      { should_process := true, reason := "no_existing_entry" } ∧
    evaluate_idempotency (fun _ _ => some queued_entry) "fp" "ch" =
      { should_process := false
        reason := "existing_entry_active_or_completed"
        existing_entry_id := some "entry-4" } ∧
    evaluate_idempotency (fun _ _ => some failed_entry) "fp" "ch" =
      { should_process := true
        reason := "existing_entry_retry_allowed"
        existing_entry_id := some "entry-5" } :=
  ⟨(evaluate_idempotency_spec (fun _ _ => none) "fp" "ch").1 rfl,
   (evaluate_idempotency_spec (fun _ _ => some queued_entry) "fp" "ch").2.1
     queued_entry rfl (by decide),
   (evaluate_idempotency_spec (fun _ _ => some failed_entry) "fp" "ch").2.2
     failed_entry rfl (by decide)⟩

/-- Unfolding of `_bootstrap_capture_metadata` when no truthy
`ingest_state` is pre-seeded and the initial pipeline status resolves
from the default state. -/
theorem bootstrap_capture_metadata_spec (record : Entry) (ingest_state : String)
    (hcheck : ((dget "ingest_state" (capture_metadata_of record)).getD
      Val.null).truthy = false)
    (hres : resolve_next_ingest_state DEFAULT_INGEST_STATE
      record.pipeline_status = Except.ok ingest_state) :
    bootstrap_capture_metadata record = Except.ok
      (record.with_capture_metadata
        [("ingest_state", Val.str ingest_state),
         ("pipeline_status", Val.str record.pipeline_status),
         ("pipeline_history", Val.list [Val.dict (bootstrap_transition_record
           ingest_state record.pipeline_status record.updated_at)]),
         ("last_transition", Val.dict (bootstrap_transition_record
           ingest_state record.pipeline_status record.updated_at))]
        record.updated_at) := by
  unfold bootstrap_capture_metadata
  simp only []
  rw [hcheck]
  simp only [Bool.false_eq_true, if_false]
  rw [hres]

/-- Key distinctness of the four-key capture-metadata patch written by
the bootstrap and by pipeline transitions. -/
theorem bootstrap_patch_keys_nodup (a b c d : Val) :
    (([("ingest_state", a), ("pipeline_status", b), ("pipeline_history", c),
       ("last_transition", d)]).map Prod.fst).Nodup := by
  simp only [List.map_cons, List.map_nil]
  decide

/-- C5 (counterexample): the claim promises `ingest_state = "captured"`
for every call carrying a fingerprint, but `create_entry` lets the
caller choose the initial `pipeline_status`; with
`queued_for_transcription` the bootstrap resolves the initial ingest
state to `queued_for_transcription`, not `captured`. -/
theorem create_entry_noncaptured_initial_state :
    (match (create_entry { } "audio" "watch" none
        (some [("capture_fingerprint", Val.str "fp")])
        "queued_for_transcription" "unreviewed" "entry-6" 0).2 with
     | Except.ok e => dget "ingest_state" (capture_metadata_of e)
     | Except.error _ => none) = some (Val.str "queued_for_transcription") ∧
    some (Val.str "queued_for_transcription") ≠ some (Val.str "captured") :=
  ⟨rfl, by simp⟩

/-- C5 (amended): `create_entry` always fails when the supplied
metadata carries no (truthy) `capture_fingerprint`, leaving the store
untouched; and when a fingerprint is present, the call uses the default
`pipeline_status` (`"ingested"`) and the metadata does not pre-seed a
truthy `capture_metadata.ingest_state`, the created Entry has
`capture_metadata.ingest_state = "captured"` and a `pipeline_history`
holding exactly the one initial transition. -/
theorem create_entry_spec :
    (∀ (store : InMemoryStore) (st ch : String) (sp : Option String)
      (m : Option (List (String × Val))) (ps cs nid : String) (now : Nat),
      ((dget "capture_fingerprint" (m.getD [])).getD Val.null).truthy = false →
      create_entry store st ch sp m ps cs nid now =
        (store, Except.error "capture_fingerprint is required for EF-01 ingests")) ∧
    (∀ (store : InMemoryStore) (st ch : String) (sp : Option String)
      (m : List (String × Val)) (cs nid : String) (now : Nat) (fv : Val),
      dget "capture_fingerprint" m = some fv → fv.truthy = true →
      ((dget "ingest_state" (capture_metadata_of_dict m)).getD
        Val.null).truthy = false →
      ∃ e', (create_entry store st ch sp (some m) "ingested" cs nid now).2 =
          Except.ok e' ∧
        dget "ingest_state" (capture_metadata_of e') =
          some (Val.str "captured") ∧
        dget "pipeline_history" (capture_metadata_of e') =
          some (Val.list [Val.dict
            (bootstrap_transition_record "captured" "ingested" now)])) := by
  constructor
  · intro store st ch sp m ps cs nid now h
    unfold create_entry
    simp only [h, Bool.not_false, if_true]
  · intro store st ch sp m cs nid now fv h1 h2 h3
    unfold create_entry
    simp only [Option.getD_some]
    rw [h1]
    simp only [Option.getD_some, h2, Bool.not_true, Bool.false_eq_true, if_false]
    have hboot := bootstrap_capture_metadata_spec
      (Entry.new st ch sp (some m) "ingested" cs nid now) "captured" h3 rfl
    rw [hboot]
    simp only []
    refine ⟨_, rfl, ?_, ?_⟩
    · rw [capture_metadata_of_with_capture_metadata _ _ (by simp),
        dget_deep_merge _ _ _ (bootstrap_patch_keys_nodup _ _ _ _)]
      rfl
    · rw [capture_metadata_of_with_capture_metadata _ _ (by simp),
        dget_deep_merge _ _ _ (bootstrap_patch_keys_nodup _ _ _ _)]
      rfl

/-- C5 (witness): the amended theorem applied to a fingerprint-free call
and to a default-status call carrying a fingerprint. -/
theorem create_entry_spec_witness :
    create_entry { } "text" "manual" none (some []) "ingested" "unreviewed"
      "entry-7" 3 =
      ({ }, Except.error "capture_fingerprint is required for EF-01 ingests") ∧
    ∃ e', (create_entry { } "text" "manual" none
        (some [("capture_fingerprint", Val.str "fp")]) "ingested" "unreviewed"
        "entry-8" 3).2 = Except.ok e' ∧
      dget "ingest_state" (capture_metadata_of e') = some (Val.str "captured") ∧
      dget "pipeline_history" (capture_metadata_of e') =
        some (Val.list [Val.dict
          (bootstrap_transition_record "captured" "ingested" 3)]) :=
  ⟨create_entry_spec.1 { } "text" "manual" none (some []) "ingested"
      "unreviewed" "entry-7" 3 rfl,
   create_entry_spec.2 { } "text" "manual" none
      [("capture_fingerprint", Val.str "fp")] "unreviewed" "entry-8" 3
      (Val.str "fp") rfl rfl rfl⟩

/-- C6: `merge_capture_metadata` deep-merges the patch into
`capture_metadata`, and at every key (hence, by the recursion, at every
nesting level) a `None` patch value or an absent key leaves the prior
value untouched, a non-`None` non-dict value (scalars and empty
collections included) replaces, and a dict value merges recursively
into an existing dict and otherwise replaces. -/
theorem merge_capture_metadata_spec :
    (∀ (store : InMemoryStore) (id : String) (record : Entry)
      (patch : List (String × Val)) (now : Nat),
      dget id store.entries = some record → patch ≠ [] →
      (merge_capture_metadata store id patch now).2 =
        Except.ok (record.with_capture_metadata patch now) ∧
      capture_metadata_of (record.with_capture_metadata patch now) =
        deep_merge_dict (capture_metadata_of record) patch) ∧
    (∀ (o p : List (String × Val)) (k : String), (p.map Prod.fst).Nodup →
      (dget k p = some Val.null → dget k (deep_merge_dict o p) = dget k o) ∧
      (dget k p = none → dget k (deep_merge_dict o p) = dget k o) ∧
      (∀ v, dget k p = some v → v ≠ Val.null → (∀ pd, v ≠ Val.dict pd) →
        dget k (deep_merge_dict o p) = some v) ∧
      (∀ pd od, dget k p = some (Val.dict pd) →
        dget k o = some (Val.dict od) →
        dget k (deep_merge_dict o p) =
          some (Val.dict (deep_merge_dict od pd))) ∧
      (∀ pd, dget k p = some (Val.dict pd) →
        (∀ od, dget k o ≠ some (Val.dict od)) →
        dget k (deep_merge_dict o p) = some (Val.dict pd))) := by
  constructor
  · intro store id record patch now hget hne
    have hisempty : patch.isEmpty = false := by
      cases patch with
      | nil => exact absurd rfl hne
      | cons hd tl => rfl
    constructor
    · unfold merge_capture_metadata
      rw [hget]
      simp only [hisempty, Bool.false_eq_true, if_false]
    · exact capture_metadata_of_with_capture_metadata record now hne
  · intro o p k hnd
    have hm := dget_deep_merge k o p hnd
    refine ⟨?_, ?_, ?_, ?_, ?_⟩
    · intro h; rw [hm, h]
    · intro h; rw [hm, h]
    · intro v h hnn hnd2
      rw [hm, h]
      cases v with
      | null => exact absurd rfl hnn
      | dict pd => exact absurd rfl (hnd2 pd)
      | str s => rfl
      | bool b => rfl
      | int n => rfl
      | list xs => rfl
    · intro pd od h ho
      rw [hm, h]
      simp only []
      rw [ho]
    · intro pd h ho
      rw [hm, h]
      rcases hv : dget k o with _ | w
      · rfl
      · cases w with
        | dict od => exact absurd hv (ho od)
        | null => rfl
        | str s => rfl
        | bool b => rfl
        | int n => rfl
        | list xs => rfl

/-- C6 (witness): merging a document patch into the sample entry, a
`None` value leaving a key alone, and a scalar overwrite. -/
theorem merge_capture_metadata_spec_witness :
    (merge_capture_metadata semantic_store "entry-1"
      [("document", Val.dict [("pages", Val.int 3)])] 5).2 =
      Except.ok (semantic_entry.with_capture_metadata
        [("document", Val.dict [("pages", Val.int 3)])] 5) ∧
    dget "a" (deep_merge_dict [("a", Val.str "old")] [("a", Val.null)]) =
      dget "a" [("a", Val.str "old")] ∧
    dget "a" (deep_merge_dict [("a", Val.str "old")] [("a", Val.str "new")]) =
      some (Val.str "new") :=
  ⟨(merge_capture_metadata_spec.1 semantic_store "entry-1" semantic_entry
      [("document", Val.dict [("pages", Val.int 3)])] 5 rfl (by simp)).1,
   (merge_capture_metadata_spec.2 [("a", Val.str "old")] [("a", Val.null)]
      "a" (by decide)).1 rfl,
   (merge_capture_metadata_spec.2 [("a", Val.str "old")] [("a", Val.str "new")]
      "a" (by decide)).2.2.1 (Val.str "new") rfl (by simp) (by simp)⟩

/-- C8: for each enrichment stage, recording a success stores the
payload and clears that stage's error, while recording a failure is
exactly the record update that sets that stage's error and `updated_at`
and nothing else — every other stage's payloads and errors are
untouched. -/
theorem stage_error_payload_exclusive :
    ∀ (e : Entry) (text : String)
      (segs : Option (List (List (String × Val))))
      (md : Option (List (String × Val)))
      (vp vpre cl : Option String) (t : Nat) (c msg : String) (r : Bool),
      ((e.with_transcription_result text segs md vp vpre cl t).transcription_error
          = none ∧
        (e.with_transcription_result text segs md vp vpre cl t).transcription_text
          = some text) ∧
      e.with_transcription_failure c msg r t =
        { e with transcription_error := some (failure_payload c msg r)
                 updated_at := t } ∧
      ((e.with_extraction_result text segs md vp vpre cl t).extraction_error
          = none ∧
        (e.with_extraction_result text segs md vp vpre cl t).extracted_text
          = some text) ∧
      e.with_extraction_failure c msg r t =
        { e with extraction_error := some (failure_payload c msg r)
                 updated_at := t } ∧
      ((e.with_normalization_result text segs md t).normalization_error = none ∧
        (e.with_normalization_result text segs md t).normalized_text = some text) ∧
      e.with_normalization_failure c msg r t =
        { e with normalization_error := some (failure_payload c msg r)
                 updated_at := t } := by
  intro e text segs md vp vpre cl t c msg r
  exact ⟨⟨rfl, rfl⟩, rfl, ⟨rfl, rfl⟩, rfl, ⟨rfl, rfl⟩, rfl⟩

/-- Sample entry carrying a non-empty verbatim preview. -/
def previewed_entry : Entry :=
  { entry_id := "entry-9"
    source_type := "audio"
    source_channel := "watch"
    source_path := none
    pipeline_status := "semantic_in_progress"
    cognitive_status := "unreviewed"
    metadata :=
      [("capture_metadata", Val.dict [("ingest_state", Val.str "processing_semantic")])]
    created_at := 0
    updated_at := 0
    verbatim_preview := some "existing preview" }

/-- Store holding only `previewed_entry`. -/
def previewed_store : InMemoryStore :=
  { entries := [("entry-9", previewed_entry)] }

/-- C9 (counterexample): the two backends are not observably identical:
on an entry without a verbatim preview, the in-memory `save_summary`
backfills `verbatim_preview` from the summary while the table-backed
UPDATE never touches that column. -/
theorem save_summary_backends_diverge :
    semantic_entry.verbatim_preview = none ∧
    (match (in_memory_save_summary semantic_store "entry-1" "hello"
        none none none 5).2 with
     | Except.ok e => e.verbatim_preview
     | Except.error _ => none) = some "hello" ∧
    (postgres_save_summary semantic_entry "hello" none none none 5).verbatim_preview
      = none :=
  ⟨rfl, rfl, rfl⟩

/-- C9 (amended): for `save_summary`, the in-memory and table-backed
backends produce identical Entry snapshots from the same stored state
whenever the stored `verbatim_preview` is a non-empty string and the
`display_title`/`model_used` arguments are each absent or non-empty; in
general they differ, because the in-memory backend backfills an empty
`verbatim_preview` from the summary and treats empty-string
`display_title`/`model_used` as "keep the stored value" while the
table-backed backend writes them through. -/
theorem save_summary_backends_agree :
    ∀ (store : InMemoryStore) (id : String) (e : Entry) (pv summary : String)
      (dt mu : Option String) (tags : Option (List String)) (now : Nat),
      dget id store.entries = some e →
      e.verbatim_preview = some pv → pv ≠ "" →
      (dt = none ∨ ∃ d, dt = some d ∧ d ≠ "") →
      (mu = none ∨ ∃ m2, mu = some m2 ∧ m2 ≠ "") →
      (in_memory_save_summary store id summary dt mu tags now).2 =
        Except.ok (postgres_save_summary e summary dt mu tags now) := by
  intro store id e pv summary dt mu tags now hget hpv hpvne hdt hmu
  unfold in_memory_save_summary
  rw [hget]
  simp only []
  congr 1
  unfold Entry.with_summary_result postgres_save_summary
  simp only []
  have hcond : ¬((e.verbatim_preview = none ∨ e.verbatim_preview = some "") ∧
      summary ≠ "") := by
    rintro ⟨h1 | h2, -⟩
    · rw [hpv] at h1; exact Option.noConfusion h1
    · rw [hpv] at h2
      injection h2 with h2
      exact hpvne h2
  rw [if_neg hcond]
  rcases hdt with rfl | ⟨d, rfl, hdne⟩
  · rcases hmu with rfl | ⟨m2, rfl, hmne⟩
    · rfl
    · simp [hmne]
  · rcases hmu with rfl | ⟨m2, rfl, hmne⟩
    · simp [hdne]
    · simp [hdne, hmne]

/-- C9 (witness): the agreement theorem applied to the previewed sample
entry with non-empty arguments. -/
theorem save_summary_backends_agree_witness :
    (in_memory_save_summary previewed_store "entry-9" "sum" (some "Title")
      (some "model-x") (some ["tag"]) 6).2 =
      Except.ok (postgres_save_summary previewed_entry "sum" (some "Title")
        (some "model-x") (some ["tag"]) 6) :=
  save_summary_backends_agree previewed_store "entry-9" previewed_entry
    "existing preview" "sum" (some "Title") (some "model-x") (some ["tag"]) 6
    rfl rfl (by decide) (Or.inr ⟨"Title", rfl, by decide⟩)
    (Or.inr ⟨"model-x", rfl, by decide⟩)

/-- C10: the terminal ingest states absorb: every pipeline status the
table accepts from `processed` maps back to `processed`, every status
accepted from `failed` maps back to `failed`, and therefore no sequence
of `update_pipeline_status` calls can move a stored Entry out of a
terminal ingest state. -/
theorem terminal_states_absorbing :
    (∀ rules, dget "processed" PIPELINE_STATUS_TRANSITIONS = some rules →
      ∀ kv ∈ rules, kv.2 = "processed") ∧
    (∀ rules, dget "failed" PIPELINE_STATUS_TRANSITIONS = some rules →
      ∀ kv ∈ rules, kv.2 = "failed") ∧
    (∀ (store : InMemoryStore) (id : String) (e : Entry),
      dget id store.entries = some e →
      (current_ingest_state e = "processed" ∨ current_ingest_state e = "failed") →
      ∀ (calls : List (String × String × Nat)) (e' : Entry),
        dget id (run_update_calls store calls).entries = some e' →
        current_ingest_state e' = current_ingest_state e) := by
  refine ⟨?_, ?_, ?_⟩
  · intro rules h
    have hfact : ∀ pr ∈ PIPELINE_STATUS_TRANSITIONS, pr.1 = "processed" →
        ∀ kv ∈ pr.2, kv.2 = "processed" := by decide
    exact hfact _ (dget_mem h) rfl
  · intro rules h
    have hfact : ∀ pr ∈ PIPELINE_STATUS_TRANSITIONS, pr.1 = "failed" →
        ∀ kv ∈ pr.2, kv.2 = "failed" := by decide
    exact hfact _ (dget_mem h) rfl
  · intro store id e hget hT calls e' he'
    refine run_update_calls_preserves_terminal hT id calls store ?_ e' he'
    intro e0 h0
    rw [hget] at h0
    injection h0 with h0
    rw [← h0]

/-- C10 (witness): the absorbing theorem applied to the processed
sample entry under a redelivered `semantic_complete` call. -/
theorem terminal_states_absorbing_witness :
    dget "entry-2" processed_store.entries = some processed_entry ∧
    current_ingest_state processed_entry = "processed" ∧
    current_ingest_state processed_entry = current_ingest_state processed_entry :=
  ⟨rfl, rfl,
   terminal_states_absorbing.2.2 processed_store "entry-2" processed_entry rfl
     (Or.inl rfl) [("entry-2", "semantic_complete", 4)] processed_entry rfl⟩

/-- Lookup of capture metadata after a patch that does not touch the
key, covering the empty-patch identity case. -/
theorem dget_capture_metadata_of_patch_other (e : Entry)
    (patch : List (String × Val)) (t : Nat) (k : String)
    (hnd : (patch.map Prod.fst).Nodup) (hk : dget k patch = none) :
    dget k (capture_metadata_of (e.with_capture_metadata patch t)) =
      dget k (capture_metadata_of e) := by
  by_cases hne : patch = []
  · subst hne
    rfl
  · exact dget_capture_metadata_of_with_capture_metadata e t k hnd hk hne

/-- Current ingest state after a capture-metadata patch that does not
carry an `ingest_state` key. -/
theorem current_ingest_state_patch_other (e : Entry)
    (patch : List (String × Val)) (t : Nat)
    (hnd : (patch.map Prod.fst).Nodup)
    (hk : dget "ingest_state" patch = none) :
    current_ingest_state (e.with_capture_metadata patch t) =
      current_ingest_state e := by
  unfold current_ingest_state
  rw [dget_capture_metadata_of_patch_other e patch t _ hnd hk]

/-- Current ingest state after the four-key transition patch written by
`_apply_pipeline_transition`. -/
theorem current_ingest_state_transition_patch (e : Entry) (next ps : String)
    (hist lastv : Val) (t : Nat) (hne2 : next ≠ "") :
    current_ingest_state (e.with_capture_metadata
      [("ingest_state", Val.str next), ("pipeline_status", Val.str ps),
       ("pipeline_history", hist), ("last_transition", lastv)] t) = next := by
  unfold current_ingest_state
  rw [capture_metadata_of_with_capture_metadata _ _ (by simp)]
  rw [dget_deep_merge _ _ _ (bootstrap_patch_keys_nodup _ _ _ _)]
  rw [show dget "ingest_state"
      [("ingest_state", Val.str next), ("pipeline_status", Val.str ps),
       ("pipeline_history", hist), ("last_transition", lastv)] =
      some (Val.str next) from rfl]
  simp [hne2]

/-- Key distinctness of the `last_error` patch of `_handle_failure`. -/
theorem last_error_patch_keys_nodup (code op : String) (r : Bool) :
    ((semantic_last_error_patch code r op).map Prod.fst).Nodup := by
  simp only [semantic_last_error_patch, List.map_cons, List.map_nil]
  decide

/-- Merging the `last_error` patch of `_handle_failure` into any
capture metadata yields a `last_error` dict whose `stage`, `code` and
`retryable` fields are the freshly recorded ones (pre-existing
`last_error` keys may survive, but these three are overwritten). -/
theorem dget_last_error_after_merge (cm2 : List (String × Val))
    (code op : String) (r : Bool) :
    ∃ le, dget "last_error"
        (deep_merge_dict cm2 (semantic_last_error_patch code r op)) =
          some (Val.dict le) ∧
      dget "retryable" le = some (Val.bool r) ∧
      dget "code" le = some (Val.str code) ∧
      dget "stage" le = some (Val.str "semantics") := by
  rw [dget_deep_merge _ _ _ (last_error_patch_keys_nodup code op r)]
  rw [show dget "last_error" (semantic_last_error_patch code r op) =
      some (Val.dict
        [("stage", Val.str "semantics"), ("code", Val.str code),
         ("retryable", Val.bool r), ("operation", Val.str op)]) from rfl]
  rcases hold : dget "last_error" cm2 with _ | w
  · exact ⟨_, rfl, rfl, rfl, rfl⟩
  · cases w with
    | dict old =>
        refine ⟨_, rfl, ?_, ?_, ?_⟩ <;>
          (rw [dget_deep_merge _ _ _ (by
            simp only [List.map_cons, List.map_nil]; decide)]; rfl)
    | null => exact ⟨_, rfl, rfl, rfl, rfl⟩
    | str s => exact ⟨_, rfl, rfl, rfl, rfl⟩
    | bool b => exact ⟨_, rfl, rfl, rfl, rfl⟩
    | int n => exact ⟨_, rfl, rfl, rfl, rfl⟩
    | list xs => exact ⟨_, rfl, rfl, rfl, rfl⟩

/-- Effect of `_handle_failure` (semantic_worker.py) on an Entry in
`processing_semantic`: the Entry lands in `ingest_state = "failed"`,
`capture_metadata.last_error` records the stage, code and retryable
flag, and the `capture_metadata.semantics` sub-object is left exactly
as it was (no attempt count is written on the failure path). -/
theorem semantic_handle_failure_spec :
    ∀ (e : Entry) (code op : String) (r : Bool) (cid : Option String)
      (t1 t2 t3 : Nat),
      current_ingest_state e = "processing_semantic" →
      ∃ e', semantic_handle_failure e code r op cid t1 t2 t3 = Except.ok e' ∧
        current_ingest_state e' = "failed" ∧
        (∃ le, dget "last_error" (capture_metadata_of e') = some (Val.dict le) ∧
          dget "retryable" le = some (Val.bool r) ∧
          dget "code" le = some (Val.str code) ∧
          dget "stage" le = some (Val.str "semantics")) ∧
        dget "semantics" (capture_metadata_of e') =
          dget "semantics" (capture_metadata_of e) := by
  intro e code op r cid t1 t2 t3 hstate
  have hres : resolve_next_ingest_state (current_ingest_state e)
      "semantic_failed" = Except.ok "failed" := by
    rw [hstate]
    rfl
  unfold semantic_handle_failure apply_pipeline_transition
  simp only []
  rw [hres]
  simp only []
  rw [if_neg (by
    rw [hstate]
    rintro ⟨-, h2⟩
    exact absurd h2 (by decide))]
  simp only []
  refine ⟨_, rfl, ?_, ?_, ?_⟩
  · rw [current_ingest_state_patch_other _ (semantic_last_error_patch code r op)
      t3 (last_error_patch_keys_nodup code op r) rfl]
    rw [current_ingest_state_with_capture_event,
      current_ingest_state_with_capture_event]
    exact current_ingest_state_transition_patch _ "failed" "semantic_failed"
      _ _ t1 (by decide)
  · rw [capture_metadata_of_with_capture_metadata _ t3
      (by simp [semantic_last_error_patch])]
    exact dget_last_error_after_merge _ code op r
  · rw [dget_capture_metadata_of_patch_other _
      (semantic_last_error_patch code r op) t3 "semantics"
      (last_error_patch_keys_nodup code op r) rfl]
    rw [capture_metadata_of_with_capture_event,
      capture_metadata_of_with_capture_event]
    rw [dget_capture_metadata_of_patch_other _ _ t1 "semantics"
      (bootstrap_patch_keys_nodup _ _ _ _) rfl]
    rfl

/-- C7 (counterexample): with a ceiling of 2 and persistently retryable
errors the loop takes 2 attempts (sleeping 250 ms before the retry),
but the failure path then records only `last_error` — the
`capture_metadata.semantics` object (where the claim expects
`attempts = 2`) is absent after the terminal failure. -/
theorem semantic_attempts_not_recorded_on_failure :
    semantic_retry_loop (fun _ => LlmCallResult.err ⟨"timeout", true⟩)
      2 250 0 = (2, [250], Except.error ⟨"timeout", true⟩) ∧
    (match semantic_handle_failure semantic_entry "timeout" true
        "summarize_v1" none 1 2 3 with
     | Except.ok e' => dget "semantics" (capture_metadata_of e')
     | Except.error _ => some Val.null) = none :=
  ⟨semantic_retry_loop_exhaust (fun _ => rfl) 0 (by omega), rfl⟩

/-- C7 (amended): the semantic worker retries a retryable error with a
sleep of `backoff_ms * 2^(attempt-1)` before each retry until the
clamped attempt ceiling, a non-retryable error stops the loop at the
current attempt regardless of remaining budget, and exhausting the
ceiling drives the failure path, leaving the Entry in
`ingest_state = "failed"` with `last_error.retryable = true`; the
failure path does not write `capture_metadata.semantics` (so the
attempt count is only recorded by the success path). -/
theorem semantic_worker_retry_spec :
    (∀ (results : Nat → LlmCallResult) (c : String) (cfg backoff : Nat),
      (∀ i, results i = LlmCallResult.err ⟨c, true⟩) →
      semantic_retry_loop results (clamped_max_attempts cfg) backoff 0 =
        (clamped_max_attempts cfg,
         (List.range (clamped_max_attempts cfg - 1)).map
           (fun i => backoff * 2 ^ i),
         Except.error ⟨c, true⟩)) ∧
    (∀ (results : Nat → LlmCallResult) (err : SemanticGatewayError)
      (max_attempts backoff k : Nat),
      results k = LlmCallResult.err err → err.retryable = false →
      semantic_retry_loop results max_attempts backoff k =
        (k + 1, [], Except.error err)) ∧
    (∀ (e : Entry) (code op : String) (cid : Option String) (t1 t2 t3 : Nat),
      current_ingest_state e = "processing_semantic" →
      ∃ e', semantic_handle_failure e code true op cid t1 t2 t3 =
          Except.ok e' ∧
        current_ingest_state e' = "failed" ∧
        (∃ le, dget "last_error" (capture_metadata_of e') =
            some (Val.dict le) ∧
          dget "retryable" le = some (Val.bool true)) ∧
        dget "semantics" (capture_metadata_of e') =
          dget "semantics" (capture_metadata_of e)) := by
  refine ⟨?_, ?_, ?_⟩
  · intro results c cfg backoff h
    have hpos : 0 < clamped_max_attempts cfg :=
      Nat.lt_of_lt_of_le Nat.zero_lt_one (Nat.le_max_left 1 cfg)
    have hx := @semantic_retry_loop_exhaust results c
      (clamped_max_attempts cfg) backoff h 0 hpos
    simpa using hx
  · intro results err max_attempts backoff k hk hr
    refine semantic_retry_loop_stop results max_attempts backoff k hk ?_
    rintro ⟨h1, -⟩
    rw [hr] at h1
    exact Bool.false_ne_true h1
  · intro e code op cid t1 t2 t3 hstate
    obtain ⟨e', h1, h2, ⟨le, h3, h4, -, -⟩, h5⟩ :=
      semantic_handle_failure_spec e code op true cid t1 t2 t3 hstate
    exact ⟨e', h1, h2, ⟨le, h3, h4⟩, h5⟩

/-- C7 (witness): the amended theorem at a 2-attempt ceiling with
persistent retryable errors, a first-call non-retryable error, and the
sample semantic-stage entry. -/
theorem semantic_worker_retry_spec_witness :
    semantic_retry_loop (fun _ => LlmCallResult.err ⟨"timeout", true⟩)
      (clamped_max_attempts 2) 250 0 =
      (clamped_max_attempts 2,
       (List.range (clamped_max_attempts 2 - 1)).map (fun i => 250 * 2 ^ i),
       Except.error ⟨"timeout", true⟩) ∧
    semantic_retry_loop (fun _ => LlmCallResult.err ⟨"bad_request", false⟩)
      5 100 0 = (1, [], Except.error ⟨"bad_request", false⟩) ∧
    ∃ e', semantic_handle_failure semantic_entry "timeout" true
        "summarize_v1" none 1 2 3 = Except.ok e' ∧
      current_ingest_state e' = "failed" ∧
      (∃ le, dget "last_error" (capture_metadata_of e') = some (Val.dict le) ∧
        dget "retryable" le = some (Val.bool true)) ∧
      dget "semantics" (capture_metadata_of e') =
        dget "semantics" (capture_metadata_of semantic_entry) :=
  ⟨semantic_worker_retry_spec.1 (fun _ => LlmCallResult.err ⟨"timeout", true⟩)
     "timeout" 2 250 (fun _ => rfl),
   semantic_worker_retry_spec.2.1
     (fun _ => LlmCallResult.err ⟨"bad_request", false⟩)
     ⟨"bad_request", false⟩ 5 100 0 rfl rfl,
   semantic_worker_retry_spec.2.2 semantic_entry "timeout" "summarize_v1"
     none 1 2 3 rfl⟩

end EchoForge

